import Mathlib

/-!
Verification development for the PDF parsing / cross-reference-resolution core
(`core/fpdfapi/parser/cpdf_parser.cpp`).

The parser translation unit is embedded function by function.  External
collaborators (the tokenizer / syntax scanner, the object model, decryption,
filters) are out of scope of this core per the design document and are modelled
as oracle data: the byte stream at a given offset is deterministic, so the
result of "parse a cross-reference section at offset p" is represented as a
finite map from offsets to parse results.  The cross-reference table class
(`CPDF_CrossRefTable`) and the parser header are not part of the available
sources; their contract is modelled from the spec (sections 3 and 4.1), as
marked on each such definition.
-/

namespace Pdfium

/-- Modelled from the spec: the object location descriptor states of section 3
(`CPDF_Parser::ObjectType`; the defining header is not among the sources).
`Free`, `Normal`, `Compressed`, `ObjStream` (an object-stream container
marker used during table construction) and `Null` (placeholder for "no
entry", never a valid resolvable state). -/
inductive ObjectType where
  | kFree
  | kNormal
  | kCompressed
  | kObjStream
  | kNull
deriving DecidableEq, Repr

/-- The parser translation unit uses `kNotCompressed` as a synonym for
`kNormal` (both denote an object stored directly at a byte offset). -/
abbrev ObjectType.kNotCompressed : ObjectType := ObjectType.kNormal

/-- Modelled from the spec: the per-object record held by the cross-reference
table (`ObjectInfo`; the defining header is not among the sources).  The
`archive` pair is flattened into two fields.  Fields default to the
value-initialized state (type `Free`, position 0, generation 0). -/
structure ObjectInfo where
  type : ObjectType := ObjectType.kFree
  pos : Int := 0
  gennum : Nat := 0
  archiveObjNum : Nat := 0
  archiveObjIndex : Nat := 0
deriving DecidableEq, Repr

/-- The claim-relevant projection of a trailer dictionary: the `/Prev`,
`/XRefStm` and `/Size` integers as the dictionary getters would return them
(0 when absent or non-numeric). -/
structure TrailerDict where
  prev : Int := 0
  xrefstm : Int := 0
  size : Int := 0
deriving DecidableEq, Repr

/-- Modelled from the spec (section 4.1): the cross-reference table is an
ordered mapping object-number to descriptor plus one trailer dictionary and
the object number that trailer came from.  The mapping is kept as an
association list sorted strictly by object number (an `std::map`). -/
structure CrossRefTable where
  objectsInfo : List (Nat × ObjectInfo) := []
  trailer : Option TrailerDict := none
  trailerObjectNumber : Nat := 0
deriving DecidableEq, Repr

/-- Ordered insert-or-replace on the sorted association list backing the
cross-reference table. -/
def insertInfo : List (Nat × ObjectInfo) → Nat → ObjectInfo → List (Nat × ObjectInfo)
  | [], n, i => [(n, i)]
  | (k, v) :: rest, n, i =>
    if n < k then (n, i) :: (k, v) :: rest
    else if n = k then (n, i) :: rest
    else (k, v) :: insertInfo rest n i

/-- Modelled from the spec (section 4.1): `GetObjectInfo(objnum)` returns the
descriptor or none if absent. -/
def CrossRefTable.GetObjectInfo (t : CrossRefTable) (objNum : Nat) : Option ObjectInfo :=
  (t.objectsInfo.find? (fun p => p.1 == objNum)).map Prod.snd

/-- Modelled from the spec (section 4.1): `AddNormal(objnum, gennum, offset)`
records/overwrites a `Normal` descriptor; validation is the caller's
responsibility. -/
def CrossRefTable.AddNormal (t : CrossRefTable) (objNum gennum : Nat) (pos : Int) : CrossRefTable :=
  { t with objectsInfo := (insertInfo t.objectsInfo objNum
      ({ type := ObjectType.kNormal, pos := pos, gennum := gennum } : ObjectInfo)) }

/-- Modelled from the spec (section 4.1): `AddCompressed(objnum, containerNum,
indexInContainer)` records a `Compressed` descriptor. -/
def CrossRefTable.AddCompressed (t : CrossRefTable) (objNum archiveObjNum archiveObjIndex : Nat) : CrossRefTable :=
  { t with objectsInfo := (insertInfo t.objectsInfo objNum
      ({ type := ObjectType.kCompressed, archiveObjNum := archiveObjNum,
         archiveObjIndex := archiveObjIndex } : ObjectInfo)) }

/-- Modelled from the spec (section 4.1): `SetFree(objnum)` records a `Free`
descriptor; the merge algorithm, not this primitive, enforces
"don't downgrade". -/
def CrossRefTable.SetFree (t : CrossRefTable) (objNum : Nat) : CrossRefTable :=
  { t with objectsInfo := insertInfo t.objectsInfo objNum ({ type := ObjectType.kFree } : ObjectInfo) }

/-- Modelled from the spec (section 4.1): `ShrinkObjectMap(newSize)` truncates
all descriptors for object numbers greater than or equal to `newSize`. -/
def CrossRefTable.ShrinkObjectMap (t : CrossRefTable) (size : Nat) : CrossRefTable :=
  { t with objectsInfo := t.objectsInfo.filter (fun p => p.1 < size) }

/-- The `SetTrailer` operation: stores the trailer dictionary and the object
number it came from (0 for classic inline trailers). -/
def CrossRefTable.SetTrailer (t : CrossRefTable) (tr : TrailerDict) (objNum : Nat) : CrossRefTable :=
  { t with trailer := some tr, trailerObjectNumber := objNum }

/-- Modelled from the spec (section 4.1): `MergeUp(older, newer)` returns a
table equal to `newer` with any object number absent from `newer` filled in
from `older`; the trailer and trailer-object-number come from whichever
argument already carries a non-null trailer, preferring `newer`. -/
def CrossRefTable.MergeUp (older newer : CrossRefTable) : CrossRefTable :=
  { objectsInfo :=
      older.objectsInfo.foldl
        (fun acc p =>
          if (acc.find? (fun q => q.1 == p.1)).isSome then acc
          else insertInfo acc p.1 p.2)
        newer.objectsInfo,
    trailer := match newer.trailer with
      | some d => some d
      | none => older.trailer,
    trailerObjectNumber :=
      match newer.trailer with
      | some _ => newer.trailerObjectNumber
      | none => match older.trailer with
        | some _ => older.trailerObjectNumber
        | none => newer.trailerObjectNumber }

/-- A limit on the size of the xref table (`kMaxXRefSize`). -/
def kMaxXRefSize : Nat := 1048576

/-- Each classic cross-reference entry is exactly 20 bytes (`kEntrySize`). -/
def kEntrySize : Nat := 20

/-- The required number of fields in a /W array in a cross-reference stream
dictionary (`kMinFieldCount`). -/
def kMinFieldCount : Nat := 3

/-- The document header size, "%PDF-1.7 plus newline" (`kPDFHeaderSize`). -/
def kPDFHeaderSize : Int := 9

/-- Modelled from the spec: the maximum object-number ceiling
(`CPDF_Parser::kMaxObjectNumber`; the defining header is not among the
sources, and the spec does not give the numeric value — the claims under
verification do not depend on it). -/
def kMaxObjectNumber : Nat := 8388607

/-- One more than the largest 32-bit unsigned value; used to model `uint32_t`
wraparound and `FX_SAFE_UINT32` validity. -/
def UINT32_MOD : Nat := 4294967296

/-- `CPDF_Parser::GetLastObjNum`: 0 when the table is empty, otherwise the
largest mapped object number (`rbegin` of the ordered map). -/
def GetLastObjNum (t : CrossRefTable) : Nat :=
  if t.objectsInfo.isEmpty then 0
  else t.objectsInfo.foldl (fun m p => max m p.1) 0

/-- `CPDF_Parser::IsValidObjectNumber`: the object number does not exceed the
last known object number. -/
def IsValidObjectNumberB (t : CrossRefTable) (objNum : Nat) : Bool :=
  objNum ≤ GetLastObjNum t

/-- `CPDF_Parser::GetObjectPositionOrZero`: the recorded position when the
descriptor exists and is `Normal`, otherwise 0. -/
def GetObjectPositionOrZero (t : CrossRefTable) (objNum : Nat) : Int :=
  match t.GetObjectInfo objNum with
  | some info => if info.type = ObjectType.kNormal then info.pos else 0
  | none => 0

/-- `CPDF_Parser::GetObjectType`: the stored descriptor type, or `Free` when
no descriptor is present. -/
def GetObjectType (t : CrossRefTable) (objNum : Nat) : ObjectType :=
  match t.GetObjectInfo objNum with
  | some info => info.type
  | none => ObjectType.kFree

/-- `GetObjectTypeFromCrossRefStreamType`: classification of the first field
of a cross-reference-stream record. -/
def GetObjectTypeFromCrossRefStreamType (crossRefStreamType : Nat) : ObjectType :=
  match crossRefStreamType with
  | 0 => ObjectType.kFree
  | 1 => ObjectType.kNotCompressed
  | 2 => ObjectType.kCompressed
  | _ => ObjectType.kNull

/-- `GetVarInt`: big-endian accumulation of a byte span into a `uint32_t`
(with 32-bit wraparound, as in the source's unsigned arithmetic). -/
def GetVarInt (input : List Nat) : Nat :=
  input.foldl (fun result c => (result * 256 + c) % UINT32_MOD) 0

/-- `GetFirstXRefStreamEntry`: the first variable-width field of a record. -/
def GetFirstXRefStreamEntry (entrySpan : List Nat) (fieldWidths : List Nat) : Nat :=
  GetVarInt (entrySpan.take (fieldWidths.getD 0 0))

/-- `GetSecondXRefStreamEntry`: the second variable-width field of a record. -/
def GetSecondXRefStreamEntry (entrySpan : List Nat) (fieldWidths : List Nat) : Nat :=
  GetVarInt ((entrySpan.drop (fieldWidths.getD 0 0)).take (fieldWidths.getD 1 0))

/-- `GetThirdXRefStreamEntry`: the third variable-width field of a record. -/
def GetThirdXRefStreamEntry (entrySpan : List Nat) (fieldWidths : List Nat) : Nat :=
  GetVarInt ((entrySpan.drop (fieldWidths.getD 0 0 + fieldWidths.getD 1 0)).take (fieldWidths.getD 2 0))

/-- `CPDF_Parser::ProcessCrossRefV5Entry`: classify one stream record and
apply it to the table with override protection.  When the first field width
is 0 the type defaults to `kNotCompressed`; an invalid type value (`kNull`)
skips the record.  An existing resolved entry is left untouched; only a
free (or absent) entry may be filled. -/
def ProcessCrossRefV5Entry (entrySpan : List Nat) (fieldWidths : List Nat) (objNum : Nat)
    (t : CrossRefTable) : CrossRefTable :=
  let type :=
    if fieldWidths.getD 0 0 ≠ 0 then
      GetObjectTypeFromCrossRefStreamType (GetFirstXRefStreamEntry entrySpan fieldWidths)
    else ObjectType.kNotCompressed
  if type = ObjectType.kNull then t
  else
    let existingType := GetObjectType t objNum
    if existingType = ObjectType.kNull then
      -- a uint32 offset always fits FX_FILESIZE (64-bit), so the range check passes
      t.AddNormal objNum 0 (GetSecondXRefStreamEntry entrySpan fieldWidths)
    else if existingType ≠ ObjectType.kFree then t
    else if type = ObjectType.kFree then t.SetFree objNum
    else if type = ObjectType.kNotCompressed then
      t.AddNormal objNum 0 (GetSecondXRefStreamEntry entrySpan fieldWidths)
    else
      let archiveObjNum := GetSecondXRefStreamEntry entrySpan fieldWidths
      if ¬ IsValidObjectNumberB t archiveObjNum then t
      else t.AddCompressed objNum archiveObjNum (GetThirdXRefStreamEntry entrySpan fieldWidths)

/-- A parsed indirect object, reduced to the attributes this core inspects:
its self-declared object number and whether it is a stream. -/
structure PdfObj where
  objNum : Nat := 0
  isStream : Bool := false
deriving DecidableEq, Repr

/-- An object stream container (`CPDF_ObjectStream`, an external collaborator):
only its `ParseObject(holder, objnum, index)` capability matters here. -/
structure ObjStreamModel where
  parseObject : Nat → Nat → Option PdfObj

/-- The crypto handler capability (`CPDF_CryptoHandler`): whether decrypting
a (possibly null) object tree succeeds. -/
structure CryptoHandlerModel where
  decryptObjectTree : Option PdfObj → Bool

/-- The security handler (`CPDF_SecurityHandler`): whether a crypto handler
is active, and that handler. -/
structure SecurityHandlerModel where
  hasCryptoHandler : Bool
  crypto : CryptoHandlerModel

/-- The read cursor of the syntax scanner (`CPDF_SyntaxParser`, an external
collaborator that owns the byte-source position). -/
structure SynCursor where
  pos : Int
deriving DecidableEq, Repr

/-- The deterministic external world a resolution call runs against:
the scanner's `GetIndirectObject` result (and resulting cursor position) as a
function of the seek offset, the security handler, the designated unencrypted
metadata object, the object-stream cache, and `CPDF_ObjectStream::Create`. -/
structure ParserEnv where
  getIndirectObject : Int → Option PdfObj × Int
  securityHandler : Option SecurityHandlerModel
  metadataObjNum : Nat
  objectStreamMap : List (Nat × ObjStreamModel)
  createObjectStream : PdfObj → Option ObjStreamModel

/-- The mutable parser state entering a resolution call: the cross-reference
table, the in-progress object-number set, and the scanner cursor. -/
structure ParserState where
  crossRefTable : CrossRefTable
  parsingObjNums : List Nat
  cursor : SynCursor

/-- `CPDF_Parser::ParseIndirectObjectAt`: save the cursor, seek to `pos`,
parse the indirect object there, restore the cursor; reject an object whose
self-declared number mismatches a nonzero requested number; decrypt when a
crypto handler is active and this is not the metadata object. -/
def ParseIndirectObjectAt (env : ParserEnv) (cur : SynCursor) (pos : Int) (objNum : Nat) :
    Option PdfObj × SynCursor :=
  let savedPos := cur.pos
  let cur1 : SynCursor := { cur with pos := pos }
  let parsed := env.getIndirectObject pos
  let result := parsed.1
  let cur2 : SynCursor := { cur1 with pos := savedPos }
  if result.isSome ∧ objNum ≠ 0 ∧ result.map PdfObj.objNum ≠ some objNum then (none, cur2)
  else
    let shouldDecrypt : Bool :=
      match env.securityHandler with
      | some sh => sh.hasCryptoHandler && (objNum != env.metadataObjNum)
      | none => false
    if shouldDecrypt then
      match env.securityHandler with
      | some sh => if sh.crypto.decryptObjectTree result then (result, cur2) else (none, cur2)
      | none => (result, cur2)
    else (result, cur2)

/-- `CPDF_Parser::GetObjectStream`: refuse containers currently being parsed,
consult the cache, require an `ObjStream` descriptor with a positive
position, parse the container object and build the object stream. -/
def GetObjectStream (env : ParserEnv) (t : CrossRefTable) (parsing : List Nat) (cur : SynCursor)
    (objectNumber : Nat) : Option ObjStreamModel :=
  if objectNumber ∈ parsing then none
  else
    match (env.objectStreamMap.find? (fun p => p.1 == objectNumber)).map Prod.snd with
    | some cached => some cached
    | none =>
      match t.GetObjectInfo objectNumber with
      | none => none
      | some info =>
        if info.type ≠ ObjectType.kObjStream then none
        else if info.pos ≤ 0 then none
        else
          match (ParseIndirectObjectAt env cur info.pos objectNumber).1 with
          | none => none
          | some o => if o.isStream then env.createObjectStream o else none

/-- `CPDF_Parser::ParseIndirectObject`: reject invalid object numbers and
circular parses; a `kNotCompressed` descriptor is parsed at its recorded
position; a `kCompressed` descriptor is delegated to its container object
stream; every other descriptor state resolves to "not found". -/
def ParseIndirectObject (env : ParserEnv) (st : ParserState) (objNum : Nat) : Option PdfObj :=
  if ¬ IsValidObjectNumberB st.crossRefTable objNum then none
  else if objNum ∈ st.parsingObjNums then none
  else
    let parsing' := objNum :: st.parsingObjNums
    if GetObjectType st.crossRefTable objNum = ObjectType.kNotCompressed then
      let pos := GetObjectPositionOrZero st.crossRefTable objNum
      if pos ≤ 0 then none
      else (ParseIndirectObjectAt env st.cursor pos objNum).1
    else if GetObjectType st.crossRefTable objNum ≠ ObjectType.kCompressed then none
    else
      match st.crossRefTable.GetObjectInfo objNum with
      | none => none
      | some info =>
        match GetObjectStream env st.crossRefTable parsing' st.cursor info.archiveObjNum with
        | none => none
        | some objStream => objStream.parseObject objNum info.archiveObjIndex

/-- A byte is an ASCII decimal digit (`isdigit` over the entry grammar). -/
def isdigitByte (c : Nat) : Bool :=
  48 ≤ c && c ≤ 57

/-- Accumulate a decimal digit run into an unsigned value, pinning (result
`none`) as soon as the next step would exceed `limitU`, exactly as
`FXSYS_StrToInt` checks `num > (max - val) / 10` before each step. -/
def strToIntAccum (s : List Nat) (acc : Nat) (limitU : Nat) : Option Nat :=
  match s with
  | [] => some acc
  | c :: rest =>
    if isdigitByte c then
      let val := c - 48
      if acc > (limitU - val) / 10 then none
      else strToIntAccum rest (acc * 10 + val) limitU
    else some acc

/-- `FXSYS_atoi64` (`FXSYS_StrToInt` at 64 bits): optional leading minus sign,
then a decimal digit run; overflow pins to the signed 64-bit limits; the
final unsigned-to-signed cast wraps modulo 2^64. -/
def FXSYS_StrToInt64 (s : List Nat) : Int :=
  let neg := s.headD 0 == 45
  let body := if neg then s.drop 1 else s
  match strToIntAccum body 0 (2 ^ 64 - 1) with
  | none => if neg then -(2 ^ 63) else 2 ^ 63 - 1
  | some num =>
    let cast : Int := if num < 2 ^ 63 then (num : Int) else (num : Int) - 2 ^ 64
    if neg then -cast else cast

/-- `FXSYS_atoi` (`FXSYS_StrToInt` at 32 bits). -/
def FXSYS_StrToInt32 (s : List Nat) : Int :=
  let neg := s.headD 0 == 45
  let body := if neg then s.drop 1 else s
  match strToIntAccum body 0 (2 ^ 32 - 1) with
  | none => if neg then -(2 ^ 31) else 2 ^ 31 - 1
  | some num =>
    let cast : Int := if num < 2 ^ 31 then (num : Int) else (num : Int) - 2 ^ 32
    if neg then -cast else cast

/-- One parsed cross-reference record awaiting merge
(`CPDF_Parser::CrossRefObjData`). -/
structure CrossRefObjData where
  objNum : Nat := 0
  info : ObjectInfo := {}
deriving DecidableEq, Repr

/-- The per-entry body of `ParseAndAppendCrossRefSubsectionData` (the loop at
the heart of the classic 20-byte entry grammar): a literal `f` at byte 17
marks the record `Free` with position 0 (the generation field stays at the
record's default-initialized 0); otherwise the leading numeric field is the
byte offset — a decoded offset of exactly 0 additionally requires all ten
offset characters to be digits — and bytes from column 11 give the
generation (stored truncated to 16 bits), marking the record
`kNotCompressed`.  `none` aborts the whole subsection (`return false`).
FX_FILESIZE is 64-bit, so the safe-assignment validity check always
passes. -/
def parseCrossRefEntry (entry : List Nat) : Option ObjectInfo :=
  if entry.getD 17 0 == 102 then
    some { type := ObjectType.kFree, pos := 0 }
  else
    let offset := FXSYS_StrToInt64 entry
    if offset == 0 && ¬ ((List.range 10).all (fun c => isdigitByte (entry.getD c 0))) then none
    else
      some { type := ObjectType.kNotCompressed, pos := offset,
             gennum := ((FXSYS_StrToInt32 (entry.drop 11)) % 65536).toNat }

/-- Parse `entriesInBlock` consecutive 20-byte records out of one read block,
assigning object numbers `startObjnum + baseIndex + i`. -/
def parseBlockEntries (block : List Nat) (entriesInBlock : Nat) (baseIndex : Nat)
    (startObjnum : Nat) : Option (List CrossRefObjData) :=
  match entriesInBlock with
  | 0 => some []
  | n + 1 =>
    match parseCrossRefEntry (block.take kEntrySize) with
    | none => none
    | some info =>
      match parseBlockEntries (block.drop kEntrySize) n (baseIndex + 1) startObjnum with
      | none => none
      | some rest => some ({ objNum := startObjnum + baseIndex, info := info } :: rest)

/-- The scanner's `ReadBlock`: yields exactly `n` bytes at `pos` or fails at
end of file. -/
def readBlockBytes (fileBytes : List Nat) (pos : Nat) (n : Nat) : Option (List Nat) :=
  if pos + n ≤ fileBytes.length then some ((fileBytes.drop pos).take n) else none

/-- The body of the block loop of `ParseAndAppendCrossRefSubsectionData`,
iterated structurally on the number of remaining loop iterations (each
iteration consumes `min entriesToRead 1024` entries): read up to 1024
entries at a time and parse each record, failing the subsection on a short
read or a malformed record. -/
def parseSubsectionBlocksGo (fileBytes : List Nat) (startObjnum count : Nat) :
    Nat → Nat → Nat → List CrossRefObjData → Option (Nat × List CrossRefObjData)
  | _, pos, 0, acc => some (pos, acc)
  | 0, pos, _, acc => some (pos, acc)
  | blocks + 1, pos, entriesToRead, acc =>
    let entriesInBlock := min entriesToRead 1024
    let bytesToRead := entriesInBlock * kEntrySize
    match readBlockBytes fileBytes pos bytesToRead with
    | none => none
    | some block =>
      match parseBlockEntries block entriesInBlock (count - entriesToRead) startObjnum with
      | none => none
      | some objs =>
        parseSubsectionBlocksGo fileBytes startObjnum count blocks (pos + bytesToRead)
          (entriesToRead - entriesInBlock) (acc ++ objs)

/-- The block loop of `ParseAndAppendCrossRefSubsectionData`, entered with
enough iterations for all entries. -/
def parseSubsectionBlocks (fileBytes : List Nat) (pos : Nat) (startObjnum : Nat) (count : Nat)
    (entriesToRead : Nat) (acc : List CrossRefObjData) : Option (Nat × List CrossRefObjData) :=
  parseSubsectionBlocksGo fileBytes startObjnum count ((entriesToRead + 1023) / 1024) pos
    entriesToRead acc

/-- `CPDF_Parser::ParseAndAppendCrossRefSubsectionData`: a zero count is a
no-op; in skip mode only the cursor is advanced (with a 64-bit overflow
check); in read mode the accumulated entry count is bounded by
`kMaxXRefSize` and by the number of 20-byte entries the whole document could
hold, then the records are read in blocks and appended.  The result is the
new cursor position and the appended output vector; `none` is `return
false`. -/
def ParseAndAppendCrossRefSubsectionData (fileBytes : List Nat) (pos : Nat)
    (startObjnum count : Nat) (outObjects : Option (List CrossRefObjData)) :
    Option (Nat × Option (List CrossRefObjData)) :=
  if count = 0 then some (pos, outObjects)
  else
    match outObjects with
    | none =>
      let pos' := count * kEntrySize + pos
      if (pos' : Int) > 2 ^ 63 - 1 then none else some (pos', none)
    | some out =>
      -- FX_SAFE_SIZE_T validity cannot fail for a uint32 count on a 64-bit size_t
      let newSize := out.length + count
      if newSize > kMaxXRefSize then none
      else if newSize > fileBytes.length / kEntrySize then none
      else
        match parseSubsectionBlocks fileBytes pos startObjnum count count [] with
        | none => none
        | some (pos', objs) => some (pos', some (out ++ objs))

/-- One step of `CPDF_Parser::MergeCrossRefObjectsData`: a `Free` record is
applied through `SetFree` only when its generation is positive; `Normal`
and `ObjStream` records are applied through `AddNormal`; `Compressed`
records through `AddCompressed`.  (The source switch has no `kNull` case;
such a record leaves the table unchanged.) -/
def mergeCrossRefObjStep (t : CrossRefTable) (obj : CrossRefObjData) : CrossRefTable :=
  match obj.info.type with
  | ObjectType.kFree => if obj.info.gennum > 0 then t.SetFree obj.objNum else t
  | ObjectType.kNormal => t.AddNormal obj.objNum obj.info.gennum obj.info.pos
  | ObjectType.kObjStream => t.AddNormal obj.objNum obj.info.gennum obj.info.pos
  | ObjectType.kCompressed => t.AddCompressed obj.objNum obj.info.archiveObjNum obj.info.archiveObjIndex
  | ObjectType.kNull => t

/-- `CPDF_Parser::MergeCrossRefObjectsData`: apply the parsed records of a
classic section to the cross-reference table in order. -/
def MergeCrossRefObjectsData (t : CrossRefTable) (objects : List CrossRefObjData) : CrossRefTable :=
  objects.foldl mergeCrossRefObjStep t

/-- Lookup in a finite offset-indexed map modelling the deterministic result
of running an external parse at a given byte offset. -/
def lookupOffset {α : Type} (file : List (Int × α)) (off : Int) : Option α :=
  (file.find? (fun p => p.1 == off)).map Prod.snd

/-- A cross-reference table holding only a trailer (the
`CPDF_CrossRefTable(trailer, object-number)` constructor). -/
def trailerOnlyTable (tr : Option TrailerDict) (objNum : Nat) : CrossRefTable :=
  { objectsInfo := [], trailer := tr, trailerObjectNumber := objNum }

/-- The deterministic outcome of the scanner at one classic-table offset:
whether `ParseCrossRefV4` succeeds in skip mode and in read mode, the
records it collects in read mode, and the result of `LoadTrailerV4`
immediately after the table. -/
structure V4Section where
  skipOk : Bool := true
  readOk : Bool := true
  objects : List CrossRefObjData := []
  trailer : Option TrailerDict := none
deriving DecidableEq, Repr

/-- The deterministic outcome of `ParseIndirectObjectAt` at one
cross-reference-stream offset: the stream object's number, whether the
object is a stream, its dictionary's `/Prev` and `/Size` integers, the
`/W` and `/Index` array elements, and the decoded stream payload. -/
structure V5Stream where
  objNum : Nat := 0
  isStream : Bool := true
  prev : Int := 0
  size : Int := 0
  wArr : Option (List Int) := none
  indexArr : Option (List (Option Int)) := none
  data : List Nat := []
deriving DecidableEq, Repr

/-- The `int` to `uint32_t` conversion applied when `/W` integers are pushed
into the width vector. -/
def toUInt32 (i : Int) : Nat :=
  (i % (4294967296 : Int)).toNat

/-- `GetFieldWidths`: the `/W` array's integers as `uint32_t` values (empty
when the array is absent). -/
def GetFieldWidths (arr : Option (List Int)) : List Nat :=
  match arr with
  | none => []
  | some l => l.map toUInt32

/-- One `/Index` segment (`CrossRefV5IndexEntry`). -/
structure CrossRefV5IndexEntry where
  startObjNum : Nat
  objCount : Nat
deriving DecidableEq, Repr

/-- `GetCrossRefV5Indices`: collect the (start, count) pairs of the `/Index`
array, skipping non-numeric pairs and pairs with a negative start or a
non-positive count; default to one segment covering `[0, size)` when no
valid pair is found. -/
def GetCrossRefV5Indices (arr : Option (List (Option Int))) (size : Nat) :
    List CrossRefV5IndexEntry :=
  let indices :=
    match arr with
    | none => []
    | some elems =>
      (List.range (elems.length / 2)).foldl
        (fun acc i =>
          match elems.getD (2 * i) none, elems.getD (2 * i + 1) none with
          | some nStartNum, some nCount =>
            if nStartNum < 0 ∨ nCount ≤ 0 then acc
            else acc ++ [⟨nStartNum.toNat, nCount.toNat⟩]
          | _, _ => acc)
        []
  if indices.isEmpty then [⟨0, size⟩] else indices

/-- The inner record loop of `LoadCrossRefV5` over one `/Index` segment,
stopping early at the object-number ceiling; iterated structurally on the
number of remaining records (`count - i`). -/
def processEntriesLoopGo (segSpan : List Nat) (fieldWidths : List Nat) (totalWidth : Nat)
    (startObjNum : Nat) : Nat → Nat → CrossRefTable → CrossRefTable
  | 0, _, t => t
  | remaining + 1, i, t =>
    let objNum := startObjNum + i
    if objNum ≥ kMaxObjectNumber then t
    else
      processEntriesLoopGo segSpan fieldWidths totalWidth startObjNum remaining (i + 1)
        (ProcessCrossRefV5Entry ((segSpan.drop (i * totalWidth)).take totalWidth) fieldWidths
          objNum t)

/-- The inner record loop of `LoadCrossRefV5`, entered at record index 0. -/
def processEntriesLoop (segSpan : List Nat) (fieldWidths : List Nat) (totalWidth : Nat)
    (startObjNum count i : Nat) (t : CrossRefTable) : CrossRefTable :=
  processEntriesLoopGo segSpan fieldWidths totalWidth startObjNum (count - i) i t

/-- The segment loop of `LoadCrossRefV5`: skip segments whose extent is not a
valid `uint32_t` or exceeds the decoded payload, and segments whose maximum
object number exceeds the table's current size; otherwise process every
record and advance the running segment index. -/
def processV5Segments (dataSpan : List Nat) (fieldWidths : List Nat) (totalWidth : Nat)
    (indices : List CrossRefV5IndexEntry) (segindex : Nat) (t : CrossRefTable) : CrossRefTable :=
  match indices with
  | [] => t
  | index :: rest =>
    let segEnd := (segindex + index.objCount) * totalWidth
    if segindex + index.objCount ≥ UINT32_MOD ∨ segEnd ≥ UINT32_MOD ∨ segEnd > dataSpan.length then
      processV5Segments dataSpan fieldWidths totalWidth rest segindex t
    else
      let segSpan := (dataSpan.drop (segindex * totalWidth)).take (index.objCount * totalWidth)
      let dwMaxObjNum := index.startObjNum + index.objCount
      let dwV5Size := if t.objectsInfo.isEmpty then 0 else GetLastObjNum t + 1
      if dwMaxObjNum ≥ UINT32_MOD ∨ dwMaxObjNum > dwV5Size then
        processV5Segments dataSpan fieldWidths totalWidth rest segindex t
      else
        processV5Segments dataSpan fieldWidths totalWidth rest
          ((segindex + index.objCount) % UINT32_MOD)
          (processEntriesLoop segSpan fieldWidths totalWidth index.startObjNum index.objCount 0 t)

/-- The trailer application step of `LoadCrossRefV5`: the main table replaces
the whole cross-reference table with the stream's trailer and shrinks it to
`/Size`; a chained table is merged underneath the current one. -/
def v5ApplyTrailer (s : V5Stream) (t : CrossRefTable) (bMainXRef : Bool) : CrossRefTable :=
  let newTrailer : TrailerDict := { prev := s.prev, xrefstm := 0, size := s.size }
  if bMainXRef then
    (trailerOnlyTable (some newTrailer) s.objNum).ShrinkObjectMap s.size.toNat
  else CrossRefTable.MergeUp (trailerOnlyTable (some newTrailer) s.objNum) t

/-- `CPDF_Parser::LoadCrossRefV5`: parse the stream object at `pos`, validate
its object number, stream-ness and the signs of `/Prev` and `/Size`, write
the chained offset, apply the trailer, then validate the `/W` widths (at
least `kMinFieldCount` entries whose `uint32_t` sum must not overflow)
before decoding any records.  Returns (success, resulting table, chained
offset); mutations already made before a failed check are kept, as in the
source. -/
def LoadCrossRefV5 (file5 : List (Int × V5Stream)) (t : CrossRefTable) (pos : Int)
    (bMainXRef : Bool) : Bool × CrossRefTable × Int :=
  match lookupOffset file5 pos with
  | none => (false, t, pos)
  | some s =>
    if s.objNum = 0 then (false, t, pos)
    else if ¬ s.isStream then (false, t, pos)
    else if s.prev < 0 then (false, t, pos)
    else if s.size < 0 then (false, t, pos)
    else
      let newPos := s.prev
      let t1 := v5ApplyTrailer s t bMainXRef
      let indices := GetCrossRefV5Indices s.indexArr s.size.toNat
      let fieldWidths := GetFieldWidths s.wArr
      if fieldWidths.length < kMinFieldCount then (false, t1, newPos)
      else if fieldWidths.sum ≥ UINT32_MOD then (false, t1, newPos)
      else
        (true,
         processV5Segments s.data fieldWidths fieldWidths.sum indices 0 t1,
         newPos)

/-- The `while (xref_offset)` loop of `CPDF_Parser::LoadAllCrossRefV5`:
record the current offset as seen, load the stream table there (which
replaces the offset by that stream's `/Prev`), and fail on a load failure
or when the chained offset was already seen (a circular `/Prev` chain).
The loop invariant that the current offset has not been seen is carried as
an argument; it holds on entry (nothing seen) and is re-established by the
cycle check. -/
def walkV5 (file5 : List (Int × V5Stream)) (t : CrossRefTable) (off : Int) (seen : List Int)
    (hoff : 0 < off → off ∉ seen) : Bool × CrossRefTable :=
  if h0 : off ≤ 0 then (true, t)
  else
    match hr : LoadCrossRefV5 file5 t off false with
    | (ok, t', off') =>
      if hok : ok = false then (false, t')
      else if hmem : off' ∈ off :: seen then (false, t')
      else walkV5 file5 t' off' (off :: seen) (fun _ => hmem)
termination_by ((file5.map Prod.fst).toFinset.filter (fun x => x ∉ seen)).card
decreasing_by
  simp_wf
  have hmemoff : off ∈ file5.map Prod.fst := by
    by_cases hl : lookupOffset file5 off = none
    · exfalso
      apply hok
      simp only [LoadCrossRefV5, hl] at hr
      exact (Prod.mk.injEq _ _ _ _).mp hr |>.1.symm
    · rcases Option.ne_none_iff_exists'.mp hl with ⟨s, hs⟩
      rcases Option.map_eq_some'.mp hs with ⟨p, hp, _⟩
      have hpm := List.mem_of_find?_eq_some hp
      have hpe := List.find?_some hp
      have : p.1 = off := by simpa using hpe
      exact this ▸ List.mem_map_of_mem Prod.fst hpm
  have hnot : off ∉ seen := hoff (by omega)
  apply Finset.card_lt_card
  rw [Finset.ssubset_iff_of_subset]
  · exact ⟨off, by simp [List.mem_toFinset.mpr hmemoff, hnot], by simp⟩
  · intro x hx
    simp only [Finset.mem_filter, List.mem_toFinset, List.mem_cons, not_or] at hx ⊢
    exact ⟨hx.1, hx.2.2⟩

/-- `CPDF_Parser::LoadAllCrossRefV5`: load the main cross-reference stream,
then follow its `/Prev` chain with cycle detection. -/
def LoadAllCrossRefV5 (file5 : List (Int × V5Stream)) (t0 : CrossRefTable) (off : Int) :
    Bool × CrossRefTable :=
  match LoadCrossRefV5 file5 t0 off true with
  | (ok, t1, off1) =>
    if ok = false then (false, t1)
    else walkV5 file5 t1 off1 [] (fun _ h => (List.not_mem_nil off1) h)

/-- `CPDF_Parser::VerifyCrossRefV4`: find the first entry with a positive
recorded position, re-read the word there (`readNumAt` models "read the
next word and return its numeric value, or none when it is empty or not a
number") and require it to equal that entry's object number. -/
def VerifyCrossRefV4 (t : CrossRefTable) (readNumAt : Int → Option Nat) : Bool :=
  match t.objectsInfo.find? (fun p => decide ((0 : Int) < p.2.pos)) with
  | none => true
  | some (k, info) =>
    match readNumAt info.pos with
    | some n => n == k
    | none => false

/-- `CPDF_Parser::LoadCrossRefV4`: seek to `pos` and run `ParseCrossRefV4`;
in skip mode nothing is merged; in read mode the collected records are
merged into the table. -/
def LoadCrossRefV4 (file : List (Int × V4Section)) (t : CrossRefTable) (pos : Int)
    (bSkip : Bool) : Bool × CrossRefTable :=
  match lookupOffset file pos with
  | none => (false, t)
  | some sec =>
    if bSkip then (if sec.skipOk then (true, t) else (false, t))
    else (if sec.readOk then (true, MergeCrossRefObjectsData t sec.objects) else (false, t))

/-- The `/Prev`-chain walk of `CPDF_Parser::LoadAllCrossRefV4` (its `while
(xref_offset > 0)` loop): refuse an offset already seen (circular
reference), skip-parse the table there (result ignored, as in the source),
require a trailer, collect the offset and the trailer's `/XRefStm` into the
oldest-first lists, merge the trailer underneath the accumulated table and
continue at the trailer's `/Prev`. -/
def walkV4 (file : List (Int × V4Section)) (t : CrossRefTable) (off : Int) (seen : List Int)
    (xrefList stmList : List Int) : Bool × CrossRefTable × List Int × List Int :=
  if off ≤ 0 then (true, t, xrefList, stmList)
  else if hseen : off ∈ seen then (false, t, xrefList, stmList)
  else
    match hfind : lookupOffset file off with
    | none => (false, t, xrefList, stmList)
    | some sec =>
      match sec.trailer with
      | none => (false, t, xrefList, stmList)
      | some tr =>
        walkV4 file (CrossRefTable.MergeUp (trailerOnlyTable (some tr) 0) t) tr.prev
          (off :: seen) (off :: xrefList) (tr.xrefstm :: stmList)
termination_by ((file.map Prod.fst).toFinset.filter (fun x => x ∉ seen)).card
decreasing_by
  simp_wf
  have hmemoff : off ∈ file.map Prod.fst := by
    rcases Option.map_eq_some'.mp hfind with ⟨p, hp, _⟩
    have hpm := List.mem_of_find?_eq_some hp
    have hpe := List.find?_some hp
    have : p.1 = off := by simpa using hpe
    exact this ▸ List.mem_map_of_mem Prod.fst hpm
  apply Finset.card_lt_card
  rw [Finset.ssubset_iff_of_subset]
  · exact ⟨off, by simp [List.mem_toFinset.mpr hmemoff, hseen], by simp⟩
  · intro x hx
    simp only [Finset.mem_filter, List.mem_toFinset, List.mem_cons, not_or] at hx ⊢
    exact ⟨hx.1, hx.2.2⟩

/-- The application loop of `CPDF_Parser::LoadAllCrossRefV4`: apply each
collected table (read mode) and each positive auxiliary `/XRefStm` stream
in oldest-first order, and spot-check the table with `VerifyCrossRefV4`
after the very first section. -/
def applyV4 (file : List (Int × V4Section)) (file5 : List (Int × V5Stream))
    (readNumAt : Int → Option Nat) (t : CrossRefTable) (xrefList stmList : List Int)
    (first : Bool) : Bool × CrossRefTable :=
  match xrefList, stmList with
  | [], _ => (true, t)
  | _ :: _, [] => (true, t)
  | x :: xs, s :: ss =>
    let r1 := if 0 < x then LoadCrossRefV4 file t x false else (true, t)
    if r1.1 = false then (false, r1.2)
    else
      let r2 :=
        if 0 < s then
          let r5 := LoadCrossRefV5 file5 r1.2 s false
          (r5.1, r5.2.1)
        else (true, r1.2)
      if r2.1 = false then (false, r2.2)
      else if first && ! VerifyCrossRefV4 r2.2 readNumAt then (false, r2.2)
      else applyV4 file file5 readNumAt r2.2 xs ss false

/-- The state of the cross-reference table after `LoadAllCrossRefV4` has
stored the startxref table's trailer and honored a plausible `/Size`
(positive and at most `kMaxXRefSize`) by shrinking. -/
def v4StartTable (t0 : CrossRefTable) (tr : TrailerDict) : CrossRefTable :=
  if 0 < tr.size ∧ tr.size ≤ (1048576 : Int) then
    (t0.SetTrailer tr 0).ShrinkObjectMap tr.size.toNat
  else t0.SetTrailer tr 0

/-- `CPDF_Parser::LoadAllCrossRefV4`: skip-parse the table at the startxref
offset, store its trailer, honor a plausible `/Size` by shrinking, walk the
`/Prev` chain collecting (table offset, `/XRefStm` offset) pairs with cycle
detection, then apply everything oldest-first with the first-section spot
check. -/
def LoadAllCrossRefV4 (file : List (Int × V4Section)) (file5 : List (Int × V5Stream))
    (readNumAt : Int → Option Nat) (t0 : CrossRefTable) (off : Int) : Bool × CrossRefTable :=
  match lookupOffset file off with
  | none => (false, t0)
  | some sec =>
    if ¬ sec.skipOk then (false, t0)
    else
      match sec.trailer with
      | none => (false, t0)
      | some tr =>
        let t2 := v4StartTable t0 tr
        let w := walkV4 file t2 tr.prev [off] [off] [tr.xrefstm]
        if w.1 = false then (false, w.2.1)
        else applyV4 file file5 readNumAt w.2.1 w.2.2.1 w.2.2.2 true

/-- The outcome of the strict `GetIndirectObject` parse performed by the
rebuild scan at an "obj" keyword, reduced to what the scan inspects: the
stream-ness of the object (`ToStream` yields null otherwise), whether its
dictionary's `/Type` is `XRef`, that dictionary's `/Prev` and `/Size`, the
object's number, and — when `CPDF_ObjectStream::Create` accepts it as an
object stream container — the container's sub-object numbers in order. -/
structure RebuildStreamInfo where
  typeIsXRef : Bool := false
  dictPrev : Int := 0
  dictSize : Int := 0
  objNum : Nat := 0
  objStreamSubObjects : Option (List Nat) := none
deriving DecidableEq, Repr

/-- One iteration event of the rebuild scan's word loop, with the
deterministic external parse results attached: a numeric word (value and
word-start position), a string or hex-string opener (consumed with no table
effect), the "trailer" keyword with its following object body (outer
`none` when `GetObjectBody` fails; the inner option is the dictionary when
the body is a dictionary or stream, paired with the body's object number),
the "obj" keyword with its strict stream parse result (`none` when the
object is not a stream), or any other word. -/
inductive RebuildToken where
  | numberTok (val : Nat) (startPos : Int)
  | parenTok
  | angleTok
  | trailerTok (body : Option (Option TrailerDict × Nat))
  | objTok (parsed : Option RebuildStreamInfo)
  | otherTok
deriving DecidableEq, Repr

/-- The "trailer" keyword handler of `CPDF_Parser::RebuildCrossRef`: merge
the parsed dictionary (possibly null) and its object number over the
rebuilt table. -/
def rebuildTrailerMerge (ct : CrossRefTable) (body : Option (Option TrailerDict × Nat)) :
    CrossRefTable :=
  match body with
  | none => ct
  | some (dict, trailerObjectNumber) =>
    CrossRefTable.MergeUp ct (trailerOnlyTable dict trailerObjectNumber)

/-- Register every sub-object of a recovered object stream container as
`Compressed` at its index, guarding each against the object-number
ceiling. -/
def addCompressedSubs (ct : CrossRefTable) (containerNum : Nat) (subs : List Nat) (i : Nat) :
    CrossRefTable :=
  match subs with
  | [] => ct
  | sub :: rest =>
    let ct' := if sub < kMaxObjectNumber then ct.AddCompressed sub containerNum i else ct
    addCompressedSubs ct' containerNum rest (i + 1)

/-- The "obj" keyword handler of `CPDF_Parser::RebuildCrossRef`, taken when
exactly two numbers precede: a cross-reference stream merges its dictionary
over the rebuilt table as a trailer candidate; then the object is recorded
`Normal` at the position of its first number (overwriting any earlier
record for that number), and a recovered object stream container also
registers its sub-objects as `Compressed`. -/
def rebuildObjHandle (ct : CrossRefTable) (numbers : List (Nat × Int))
    (parsed : Option RebuildStreamInfo) : CrossRefTable :=
  match numbers with
  | [(objNum, objPos), (genNum, _)] =>
    let ct1 :=
      match parsed with
      | some s =>
        if s.typeIsXRef then
          CrossRefTable.MergeUp ct
            (trailerOnlyTable (some { prev := s.dictPrev, xrefstm := 0, size := s.dictSize })
              s.objNum)
        else ct
      | none => ct
    if objNum < kMaxObjectNumber then
      let ct2 := ct1.AddNormal objNum genNum objPos
      match parsed with
      | some s =>
        match s.objStreamSubObjects with
        | some subs => addCompressedSubs ct2 objNum subs 0
        | none => ct2
      | none => ct2
    else ct1
  | _ => ct

/-- The word loop of `CPDF_Parser::RebuildCrossRef`: numeric words are kept
in a two-element window of (value, start position) pairs and do not clear
the window; every other word is handled and then clears the window. -/
def rebuildScan (tokens : List RebuildToken) (numbers : List (Nat × Int)) (ct : CrossRefTable) :
    CrossRefTable :=
  match tokens with
  | [] => ct
  | tok :: rest =>
    match tok with
    | RebuildToken.numberTok v p =>
      let numbers1 := numbers ++ [(v, p)]
      let numbers2 := if numbers1.length > 2 then numbers1.drop 1 else numbers1
      rebuildScan rest numbers2 ct
    | RebuildToken.parenTok => rebuildScan rest [] ct
    | RebuildToken.angleTok => rebuildScan rest [] ct
    | RebuildToken.trailerTok body => rebuildScan rest [] (rebuildTrailerMerge ct body)
    | RebuildToken.objTok parsed => rebuildScan rest [] (rebuildObjHandle ct numbers parsed)
    | RebuildToken.otherTok => rebuildScan rest [] ct

/-- `CPDF_Parser::RebuildCrossRef`: scan the whole document, build a fresh
table, merge it over the pre-existing table, and succeed exactly when the
resulting table has a trailer and a non-empty object map. -/
def RebuildCrossRef (t : CrossRefTable) (tokens : List RebuildToken) : Bool × CrossRefTable :=
  let ct := rebuildScan tokens [] {}
  let merged := CrossRefTable.MergeUp t ct
  (merged.trailer.isSome && ! merged.objectsInfo.isEmpty, merged)

/-- The deterministic external world of one startup parse: the classic
sections, the cross-reference streams, the word reader used by the spot
check, and the rebuild scan's event list. -/
structure StartParseEnv where
  fileV4 : List (Int × V4Section)
  fileV5 : List (Int × V5Stream)
  readNumAt : Int → Option Nat
  rebuildTokens : List RebuildToken

/-- The cross-reference phase of `CPDF_Parser::StartParseInternal` (the
strategy cascade around `m_LastXRefOffset`): a plausible startxref offset
tries the classic loader, then the stream loader, then the rebuild; an
implausible offset goes straight to the rebuild; a failed rebuild is the
fatal format error (`none`).  The boolean records whether the table was
rebuilt. -/
def startParseXRefPhase (env : StartParseEnv) (t0 : CrossRefTable) (lastXRefOffset : Int) :
    Option (CrossRefTable × Bool) :=
  if lastXRefOffset ≥ kPDFHeaderSize then
    let r4 := LoadAllCrossRefV4 env.fileV4 env.fileV5 env.readNumAt t0 lastXRefOffset
    if r4.1 then some (r4.2, false)
    else
      let r5 := LoadAllCrossRefV5 env.fileV5 r4.2 lastXRefOffset
      if r5.1 then some (r5.2, false)
      else
        let rr := RebuildCrossRef r5.2 env.rebuildTokens
        if rr.1 then some (rr.2, true) else none
  else
    let rr := RebuildCrossRef t0 env.rebuildTokens
    if rr.1 then some (rr.2, true) else none

/-! Concrete inputs used by the witness theorems. -/

/-- A resolution environment in which every external parse fails. -/
def envTrivial : ParserEnv :=
  { getIndirectObject := fun _ => (none, 0),
    securityHandler := none,
    metadataObjNum := 0,
    objectStreamMap := [],
    createObjectStream := fun _ => none }

/-- A parser state whose table marks object 1 `Free` and object 7 `Normal`. -/
def stateFree1 : ParserState :=
  { crossRefTable :=
      { objectsInfo :=
          [(1, { type := ObjectType.kFree }),
           (7, { type := ObjectType.kNormal, pos := 300 })] },
    parsingObjNums := [],
    cursor := { pos := 42 } }

/-- A table whose only entry marks object 4 `Normal`. -/
def tableNormal4 : CrossRefTable :=
  { objectsInfo := [(4, { type := ObjectType.kNormal, pos := 100 })] }

/-- A startup environment with no parsable structure at all. -/
def envEmptyStart : StartParseEnv :=
  { fileV4 := [], fileV5 := [], readNumAt := fun _ => none, rebuildTokens := [] }

/-- The 20 bytes of the classic entry "0000000000 00001 f" with CRLF. -/
def entryFreeW : List Nat :=
  [48, 48, 48, 48, 48, 48, 48, 48, 48, 48, 32, 48, 48, 48, 48, 49, 32, 102, 13, 10]

/-- The 20 bytes of the classic entry "0000000017 00000 n" with CRLF. -/
def entryNorm17 : List Nat :=
  [48, 48, 48, 48, 48, 48, 48, 48, 49, 55, 32, 48, 48, 48, 48, 48, 32, 110, 13, 10]

/-- Five previously-accumulated records. -/
def outFive : List CrossRefObjData :=
  List.replicate 5 {}

/-- A 200-byte file with three valid entries at position 120: total capacity
is 10 entries but only 4 more fit after position 120. -/
def fileRemaining : List Nat :=
  List.replicate 120 37 ++ entryNorm17 ++ entryNorm17 ++ entryNorm17 ++ List.replicate 20 37

/-- A single classic section recording object 3 at position 50, with an
empty trailer. -/
def secSpotCheck : V4Section :=
  { skipOk := true, readOk := true,
    objects := [{ objNum := 3, info := { type := ObjectType.kNormal, pos := 50 } }],
    trailer := some {} }

/-- A one-section classic file at offset 20. -/
def fileSpotCheck : List (Int × V4Section) :=
  [(20, secSpotCheck)]

/-- A word reader that reads object number 99 at position 50 — mismatching
the table's object 3. -/
def readNumMismatch : Int → Option Nat :=
  fun p => if p = 50 then some 99 else none

/-- A cross-reference stream whose `/W` array has only two widths. -/
def streamBadW : V5Stream :=
  { objNum := 5, isStream := true, prev := 0, size := 0, wArr := some [1, 1] }

/-- A one-stream file at offset 30. -/
def fileBadW : List (Int × V5Stream) :=
  [(30, streamBadW)]

/-- A classic section at offset 20 whose trailer points back to offset 40. -/
def secCycA : V4Section :=
  { skipOk := true, readOk := true, objects := [], trailer := some { prev := 40 } }

/-- A classic section at offset 40 whose trailer points back to offset 20. -/
def secCycB : V4Section :=
  { trailer := some { prev := 20 } }

/-- A classic file with a circular `/Prev` chain between offsets 20 and 40. -/
def fileCycV4 : List (Int × V4Section) :=
  [(20, secCycA), (40, secCycB)]

/-- A cross-reference stream at offset 20 chaining to offset 40. -/
def streamCycA : V5Stream :=
  { objNum := 5, prev := 40, wArr := some [1, 1, 1] }

/-- A cross-reference stream at offset 40 chaining back to offset 20. -/
def streamCycB : V5Stream :=
  { objNum := 6, prev := 20, wArr := some [1, 1, 1] }

/-- A stream file with a circular `/Prev` chain between offsets 20 and 40. -/
def fileCycV5 : List (Int × V5Stream) :=
  [(20, streamCycA), (40, streamCycB)]

end Pdfium

namespace Pdfium

/-! Helper lemmas shared by the claim theorems. -/

/-- A successful descriptor lookup comes from a pair of the backing list. -/
theorem getObjectInfo_mem (t : CrossRefTable) (n : Nat) (info : ObjectInfo)
    (h : t.GetObjectInfo n = some info) : (n, info) ∈ t.objectsInfo := by
  unfold CrossRefTable.GetObjectInfo at h
  rcases Option.map_eq_some'.mp h with ⟨p, hp, hsnd⟩
  have hmem := List.mem_of_find?_eq_some hp
  have hfst : p.1 = n := by simpa using List.find?_some hp
  have : p = (n, info) := by
    cases p
    simp_all
  exact this ▸ hmem

/-- Resolution returns "not found" whenever the object number is invalid or
its descriptor is neither `Normal` nor `Compressed`. -/
theorem parseIndirectObject_none_of_unresolvable (env : ParserEnv) (st : ParserState)
    (objNum : Nat)
    (h : IsValidObjectNumberB st.crossRefTable objNum = false ∨
      (GetObjectType st.crossRefTable objNum ≠ ObjectType.kNormal ∧
       GetObjectType st.crossRefTable objNum ≠ ObjectType.kCompressed)) :
    ParseIndirectObject env st objNum = none := by
  unfold ParseIndirectObject
  rcases h with h | ⟨h1, h2⟩
  · rw [if_pos (by simp [h])]
  · by_cases hv : IsValidObjectNumberB st.crossRefTable objNum = true
    · rw [if_neg (by simp [hv])]
      by_cases hm : objNum ∈ st.parsingObjNums
      · rw [if_pos hm]
      · rw [if_neg hm, if_neg h1, if_pos h2]
    · rw [if_pos (by simpa using hv)]

/-- C1: for every object number whose cross-reference descriptor is `Free` or
`Null`, and for every object number outside the known valid range,
`ParseIndirectObject` resolves to "not found" (a null result, never a fatal
error); only descriptors of type `Normal` or `Compressed` can yield an
object. -/
theorem parseIndirectObject_free_null_not_found (env : ParserEnv) (st : ParserState)
    (objNum : Nat) :
    ((GetObjectType st.crossRefTable objNum = ObjectType.kFree ∨
      GetObjectType st.crossRefTable objNum = ObjectType.kNull ∨
      IsValidObjectNumberB st.crossRefTable objNum = false) →
        ParseIndirectObject env st objNum = none) ∧
    ((ParseIndirectObject env st objNum).isSome = true →
        IsValidObjectNumberB st.crossRefTable objNum = true ∧
        (GetObjectType st.crossRefTable objNum = ObjectType.kNormal ∨
         GetObjectType st.crossRefTable objNum = ObjectType.kCompressed)) := by
  constructor
  · intro h
    apply parseIndirectObject_none_of_unresolvable
    rcases h with h | h | h
    · exact Or.inr (by rw [h]; exact ⟨by decide, by decide⟩)
    · exact Or.inr (by rw [h]; exact ⟨by decide, by decide⟩)
    · exact Or.inl h
  · intro hs
    constructor
    · by_contra hv
      rw [parseIndirectObject_none_of_unresolvable env st objNum
        (Or.inl (by simpa using hv))] at hs
      simp at hs
    · by_contra hn
      push_neg at hn
      rw [parseIndirectObject_none_of_unresolvable env st objNum (Or.inr hn)] at hs
      simp at hs

/-- Witness for C1: in a table where object 1 is `Free`, resolution of
object 1 yields "not found". -/
theorem parseIndirectObject_free_null_not_found_witness :
    ParseIndirectObject envTrivial stateFree1 1 = none :=
  (parseIndirectObject_free_null_not_found envTrivial stateFree1 1).1 (Or.inl (by decide))

/-- C2: a cross-reference-stream record's first field classifies the entry
exactly as 0 = `Free`, 1 = `Normal` (second field = byte offset, generation
0), 2 = `Compressed` (second field = container object number, third field =
index within container); any other type value is invalid (`Null`) and the
record is skipped without modifying the table. -/
theorem crossRefStreamRecordClassification :
    (GetObjectTypeFromCrossRefStreamType 0 = ObjectType.kFree ∧
     GetObjectTypeFromCrossRefStreamType 1 = ObjectType.kNormal ∧
     GetObjectTypeFromCrossRefStreamType 2 = ObjectType.kCompressed ∧
     ∀ n, 3 ≤ n → GetObjectTypeFromCrossRefStreamType n = ObjectType.kNull) ∧
    (∀ entrySpan fieldWidths objNum t, fieldWidths.getD 0 0 ≠ 0 →
       3 ≤ GetFirstXRefStreamEntry entrySpan fieldWidths →
       ProcessCrossRefV5Entry entrySpan fieldWidths objNum t = t) ∧
    (∀ entrySpan fieldWidths objNum t,
       fieldWidths.getD 0 0 ≠ 0 → GetObjectType t objNum = ObjectType.kFree →
       (GetFirstXRefStreamEntry entrySpan fieldWidths = 0 →
          ProcessCrossRefV5Entry entrySpan fieldWidths objNum t = t.SetFree objNum) ∧
       (GetFirstXRefStreamEntry entrySpan fieldWidths = 1 →
          ProcessCrossRefV5Entry entrySpan fieldWidths objNum t =
            t.AddNormal objNum 0 (GetSecondXRefStreamEntry entrySpan fieldWidths)) ∧
       (GetFirstXRefStreamEntry entrySpan fieldWidths = 2 →
          IsValidObjectNumberB t (GetSecondXRefStreamEntry entrySpan fieldWidths) = true →
          ProcessCrossRefV5Entry entrySpan fieldWidths objNum t =
            t.AddCompressed objNum (GetSecondXRefStreamEntry entrySpan fieldWidths)
              (GetThirdXRefStreamEntry entrySpan fieldWidths))) := by
  refine ⟨⟨rfl, rfl, rfl, ?_⟩, ?_, ?_⟩
  · intro n hn
    obtain ⟨k, rfl⟩ := Nat.exists_eq_add_of_le hn
    rw [Nat.add_comm]
    rfl
  · intro entrySpan fieldWidths objNum t hw h3
    obtain ⟨k, hk⟩ := Nat.exists_eq_add_of_le h3
    simp only [ProcessCrossRefV5Entry, if_pos hw, hk, Nat.add_comm 3 k]
    rw [if_pos]
    rfl
  · intro entrySpan fieldWidths objNum t hw hfree
    simp only [List.getD_eq_getElem?_getD] at hw
    refine ⟨?_, ?_, ?_⟩
    · intro h0
      simp [ProcessCrossRefV5Entry, hw, h0, hfree, GetObjectTypeFromCrossRefStreamType]
    · intro h1
      simp [ProcessCrossRefV5Entry, hw, h1, hfree, GetObjectTypeFromCrossRefStreamType]
    · intro h2 hvalid
      simp [ProcessCrossRefV5Entry, hw, h2, hfree, hvalid,
        GetObjectTypeFromCrossRefStreamType]

/-- Witness for C2: a width-(1,1,1) record with first field 1 on an empty
table records `Normal` at the second field's value. -/
theorem crossRefStreamRecordClassification_witness :
    ProcessCrossRefV5Entry [1, 9, 0] [1, 1, 1] 4 {} =
      CrossRefTable.AddNormal {} 4 0 9 :=
  ((crossRefStreamRecordClassification.2.2 [1, 9, 0] [1, 1, 1] 4 {} (by decide)
    (by decide)).2.1) (by decide)

/-- C3: within a V5 load pass, a record for an object number whose existing
descriptor is already `Normal` or `Compressed` leaves that descriptor
unchanged; a record can only change the table when the existing descriptor
is `Free` or absent (both reported as `Free`). -/
theorem processCrossRefV5Entry_first_writer_wins (entrySpan fieldWidths : List Nat)
    (objNum : Nat) (t : CrossRefTable)
    (hclean : ∀ p ∈ t.objectsInfo, p.2.type ≠ ObjectType.kNull) :
    ((GetObjectType t objNum = ObjectType.kNormal ∨
      GetObjectType t objNum = ObjectType.kCompressed) →
        ProcessCrossRefV5Entry entrySpan fieldWidths objNum t = t) ∧
    (ProcessCrossRefV5Entry entrySpan fieldWidths objNum t ≠ t →
        GetObjectType t objNum = ObjectType.kFree) := by
  have hnn : GetObjectType t objNum ≠ ObjectType.kNull := by
    intro h
    unfold GetObjectType at h
    cases hfind : t.GetObjectInfo objNum with
    | none => rw [hfind] at h; exact absurd h (by decide)
    | some info =>
      rw [hfind] at h
      exact hclean _ (getObjectInfo_mem t objNum info hfind) h
  have hstep : GetObjectType t objNum ≠ ObjectType.kFree →
      ProcessCrossRefV5Entry entrySpan fieldWidths objNum t = t := by
    intro hnf
    simp only [ProcessCrossRefV5Entry]
    split_ifs <;> simp_all
  constructor
  · intro h
    apply hstep
    rcases h with h | h <;> rw [h] <;> decide
  · intro hch
    by_contra hnf
    exact hch (hstep hnf)

/-- Witness for C3: a free-type record does not change a table whose
descriptor for the object is already `Normal`. -/
theorem processCrossRefV5Entry_first_writer_wins_witness :
    ProcessCrossRefV5Entry [0, 0, 0] [1, 1, 1] 4 tableNormal4 = tableNormal4 :=
  (processCrossRefV5Entry_first_writer_wins [0, 0, 0] [1, 1, 1] 4 tableNormal4
    (by decide)).1 (Or.inl (by decide))

/-- C10: `ParseIndirectObjectAt` saves the scanner's read position before
seeking to the requested offset and restores it before returning on every
path, so resolving an indirect object leaves the shared read cursor exactly
where it was. -/
theorem parseIndirectObjectAt_restores_cursor (env : ParserEnv) (cur : SynCursor) (pos : Int)
    (objNum : Nat) : (ParseIndirectObjectAt env cur pos objNum).2 = cur := by
  obtain ⟨p⟩ := cur
  unfold ParseIndirectObjectAt
  dsimp only
  split
  · rfl
  · split
    · split
      · split <;> rfl
      · rfl
    · rfl

/-- C6: in a classic 20-byte entry an `f` flag at byte 17 marks the entry
`Free` and a numeric offset otherwise marks it `Normal`; when merging
parsed entries, a free entry is applied via `SetFree` only if its
generation number is non-zero, while a free entry with generation zero is
ignored. -/
theorem classicEntryClassificationAndFreeGating :
    (∀ entry : List Nat, entry.getD 17 0 = 102 →
        parseCrossRefEntry entry = some { type := ObjectType.kFree, pos := 0 }) ∧
    (∀ entry : List Nat, entry.getD 17 0 ≠ 102 →
        (FXSYS_StrToInt64 entry ≠ 0 ∨
         ((List.range 10).all (fun c => isdigitByte (entry.getD c 0))) = true) →
        parseCrossRefEntry entry =
          some { type := ObjectType.kNormal, pos := FXSYS_StrToInt64 entry,
                 gennum := ((FXSYS_StrToInt32 (entry.drop 11)) % 65536).toNat }) ∧
    (∀ (t : CrossRefTable) (obj : CrossRefObjData), obj.info.type = ObjectType.kFree →
        (0 < obj.info.gennum → mergeCrossRefObjStep t obj = t.SetFree obj.objNum) ∧
        (obj.info.gennum = 0 → mergeCrossRefObjStep t obj = t)) := by
  refine ⟨?_, ?_, ?_⟩
  · intro entry h17
    simp only [List.getD_eq_getElem?_getD] at h17
    simp [parseCrossRefEntry, h17]
  · intro entry h17 hcond
    simp only [List.getD_eq_getElem?_getD] at h17
    simp [parseCrossRefEntry, h17]
    rcases hcond with hc | hc
    · intro h0
      exact absurd h0 hc
    · intro _ x hx
      simp only [List.getD_eq_getElem?_getD, List.all_eq_true] at hc
      exact hc x (List.mem_range.mpr hx)
  · intro t obj hfree
    unfold mergeCrossRefObjStep
    rw [hfree]
    constructor
    · intro hg
      rw [if_pos hg]
    · intro hg
      rw [if_neg (by omega)]

/-- Witness for C6: the canonical free entry parses as `Free`, and merging a
free record with generation 1 frees the object while one with generation 0
leaves the table untouched. -/
theorem classicEntryClassificationAndFreeGating_witness :
    parseCrossRefEntry entryFreeW = some { type := ObjectType.kFree, pos := 0 } ∧
    mergeCrossRefObjStep tableNormal4
        { objNum := 4, info := { type := ObjectType.kFree, gennum := 1 } } =
      tableNormal4.SetFree 4 ∧
    mergeCrossRefObjStep tableNormal4
        { objNum := 4, info := { type := ObjectType.kFree, gennum := 0 } } =
      tableNormal4 :=
  ⟨classicEntryClassificationAndFreeGating.1 entryFreeW (by decide),
   (classicEntryClassificationAndFreeGating.2.2 tableNormal4
      { objNum := 4, info := { type := ObjectType.kFree, gennum := 1 } } (by decide)).1
     (by decide),
   (classicEntryClassificationAndFreeGating.2.2 tableNormal4
      { objNum := 4, info := { type := ObjectType.kFree, gennum := 0 } } (by decide)).2
     (by decide)⟩

/-- C9 (amended): the accumulated entry count of a classic subsection is
bounded before allocation: a count exceeding the maximum table size
(1048576) or exceeding the number of 20-byte entries that could physically
fit in the total file size is rejected. -/
theorem subsectionCountBounds (fileBytes : List Nat) (pos startObjnum count : Nat)
    (out : List CrossRefObjData) (hc : 0 < count) :
    (out.length + count > kMaxXRefSize →
       ParseAndAppendCrossRefSubsectionData fileBytes pos startObjnum count (some out) = none) ∧
    (out.length + count > fileBytes.length / kEntrySize →
       ParseAndAppendCrossRefSubsectionData fileBytes pos startObjnum count (some out) = none) := by
  have hc0 : ¬ (count = 0) := by omega
  constructor
  · intro h
    simp only [ParseAndAppendCrossRefSubsectionData, if_neg hc0]
    rw [if_pos h]
  · intro h
    simp only [ParseAndAppendCrossRefSubsectionData, if_neg hc0]
    by_cases hk : out.length + count > kMaxXRefSize
    · rw [if_pos hk]
    · rw [if_neg hk, if_pos h]

/-- Witness for C9 (amended): a subsection of 1048577 entries is rejected. -/
theorem subsectionCountBounds_witness :
    ParseAndAppendCrossRefSubsectionData [] 0 0 1048577 (some []) = none :=
  (subsectionCountBounds [] 0 0 1048577 [] (by decide)).1 (by decide)

set_option maxRecDepth 100000 in
/-- Counterexample for C9 as stated: with 5 records already accumulated, a
3-entry subsection read at position 120 of a 200-byte file succeeds, even
though the accumulated count (8) exceeds the number of 20-byte entries that
could physically fit in the remaining file size (4): the source bounds the
count against the total document size, not the remaining size. -/
theorem subsectionCountBounds_remaining_counterexample :
    (ParseAndAppendCrossRefSubsectionData fileRemaining 120 0 3 (some outFive)).isSome = true ∧
    outFive.length + 3 > (fileRemaining.length - 120) / kEntrySize := by
  constructor
  · decide
  · decide

/-- Unfolding: the classic chain walk terminates at a non-positive offset. -/
theorem walkV4_zero (file : List (Int × V4Section)) (t : CrossRefTable) (off : Int)
    (seen xl sl : List Int) (h : off ≤ 0) :
    walkV4 file t off seen xl sl = (true, t, xl, sl) := by
  rw [walkV4]
  rw [if_pos h]

/-- Unfolding: the classic chain walk fails at an already-seen positive
offset. -/
theorem walkV4_seen (file : List (Int × V4Section)) (t : CrossRefTable) (off : Int)
    (seen xl sl : List Int) (h0 : ¬ off ≤ 0) (h : off ∈ seen) :
    walkV4 file t off seen xl sl = (false, t, xl, sl) := by
  rw [walkV4]
  rw [if_neg h0, dif_pos h]

/-- Unfolding: one step of the classic chain walk at a fresh offset with a
parsable trailer. -/
theorem walkV4_step (file : List (Int × V4Section)) (t : CrossRefTable) (off : Int)
    (seen xl sl : List Int) (sec : V4Section) (tr : TrailerDict)
    (h0 : ¬ off ≤ 0) (h : off ∉ seen) (hfind : lookupOffset file off = some sec)
    (htr : sec.trailer = some tr) :
    walkV4 file t off seen xl sl =
      walkV4 file (CrossRefTable.MergeUp (trailerOnlyTable (some tr) 0) t) tr.prev
        (off :: seen) (off :: xl) (tr.xrefstm :: sl) := by
  rw [walkV4]
  rw [if_neg h0, dif_neg h]
  split
  · next heq =>
    rw [hfind] at heq
    simp at heq
  · next sec2 heq =>
    rw [hfind] at heq
    injection heq with heq2
    subst heq2
    split
    · next htr2 =>
      rw [htr] at htr2
      simp at htr2
    · next tr2 htr2 =>
      rw [htr] at htr2
      injection htr2 with htr3
      subst htr3
      rfl

/-- Unfolding: the stream chain walk fails when the freshly-chained offset
was already seen. -/
theorem walkV5_cycle (file5 : List (Int × V5Stream)) (t : CrossRefTable) (off : Int)
    (seen : List Int) (hoff : 0 < off → off ∉ seen) (t' : CrossRefTable) (off' : Int)
    (h0 : ¬ off ≤ 0) (hld : LoadCrossRefV5 file5 t off false = (true, t', off'))
    (hmem : off' ∈ off :: seen) :
    walkV5 file5 t off seen hoff = (false, t') := by
  rw [walkV5]
  rw [dif_neg h0]
  split
  next ok t2 off2 heq =>
    rw [hld] at heq
    injection heq with h1 h23
    injection h23 with h2 h3
    subst h1
    subst h2
    subst h3
    rw [dif_neg (by simp), dif_pos hmem]

/-- Unfolding: one step of the stream chain walk at a fresh chained offset. -/
theorem walkV5_step (file5 : List (Int × V5Stream)) (t : CrossRefTable) (off : Int)
    (seen : List Int) (hoff : 0 < off → off ∉ seen) (t' : CrossRefTable) (off' : Int)
    (h0 : ¬ off ≤ 0) (hld : LoadCrossRefV5 file5 t off false = (true, t', off'))
    (hmem : off' ∉ off :: seen) (hoff2 : 0 < off' → off' ∉ off :: seen) :
    walkV5 file5 t off seen hoff = walkV5 file5 t' off' (off :: seen) hoff2 := by
  rw [walkV5]
  rw [dif_neg h0]
  split
  next ok t2 off2 heq =>
    rw [hld] at heq
    injection heq with h1 h23
    injection h23 with h2 h3
    subst h1
    subst h2
    subst h3
    rw [dif_neg (by simp), dif_neg hmem]

/-- Unfolding: `LoadCrossRefV5` on a well-formed stream succeeds, returning
the processed table and the stream's `/Prev`. -/
theorem loadCrossRefV5_success (file5 : List (Int × V5Stream)) (t : CrossRefTable) (pos : Int)
    (bMainXRef : Bool) (s : V5Stream)
    (hs : lookupOffset file5 pos = some s)
    (h1 : s.objNum ≠ 0) (h2 : s.isStream = true) (h3 : 0 ≤ s.prev) (h4 : 0 ≤ s.size)
    (h5 : ¬ (GetFieldWidths s.wArr).length < kMinFieldCount)
    (h6 : (GetFieldWidths s.wArr).sum < UINT32_MOD) :
    LoadCrossRefV5 file5 t pos bMainXRef =
      (true,
       processV5Segments s.data (GetFieldWidths s.wArr) (GetFieldWidths s.wArr).sum
         (GetCrossRefV5Indices s.indexArr s.size.toNat) 0 (v5ApplyTrailer s t bMainXRef),
       s.prev) := by
  simp only [LoadCrossRefV5, hs]
  rw [if_neg h1, if_neg (by simp [h2]), if_neg (by omega), if_neg (by omega), if_neg h5,
    if_neg (by omega)]

/-- Unfolding: `LoadAllCrossRefV5` fails when the main stream load fails. -/
theorem loadAllCrossRefV5_fail (file5 : List (Int × V5Stream)) (t0 t1 : CrossRefTable)
    (off off1 : Int) (hld : LoadCrossRefV5 file5 t0 off true = (false, t1, off1)) :
    LoadAllCrossRefV5 file5 t0 off = (false, t1) := by
  simp only [LoadAllCrossRefV5, hld]
  simp

/-- Unfolding: `LoadAllCrossRefV5` enters the chain walk after a successful
main stream load. -/
theorem loadAllCrossRefV5_go (file5 : List (Int × V5Stream)) (t0 t1 : CrossRefTable)
    (off off1 : Int) (hld : LoadCrossRefV5 file5 t0 off true = (true, t1, off1)) :
    LoadAllCrossRefV5 file5 t0 off =
      walkV5 file5 t1 off1 [] (fun _ h => (List.not_mem_nil off1) h) := by
  simp only [LoadAllCrossRefV5, hld]
  simp

/-- Unfolding: `LoadAllCrossRefV4` past its startxref section and trailer. -/
theorem loadAllCrossRefV4_shape (file : List (Int × V4Section)) (file5 : List (Int × V5Stream))
    (readNumAt : Int → Option Nat) (t0 : CrossRefTable) (off : Int) (sec : V4Section)
    (tr : TrailerDict) (hfind : lookupOffset file off = some sec) (hskip : sec.skipOk = true)
    (htr : sec.trailer = some tr) :
    LoadAllCrossRefV4 file file5 readNumAt t0 off =
      (if (walkV4 file (v4StartTable t0 tr) tr.prev [off] [off] [tr.xrefstm]).1 = false
       then (false, (walkV4 file (v4StartTable t0 tr) tr.prev [off] [off] [tr.xrefstm]).2.1)
       else applyV4 file file5 readNumAt
         (walkV4 file (v4StartTable t0 tr) tr.prev [off] [off] [tr.xrefstm]).2.1
         (walkV4 file (v4StartTable t0 tr) tr.prev [off] [off] [tr.xrefstm]).2.2.1
         (walkV4 file (v4StartTable t0 tr) tr.prev [off] [off] [tr.xrefstm]).2.2.2 true) := by
  simp only [LoadAllCrossRefV4, hfind, htr, hskip]
  simp

/-- C4: a `/Prev` chain offset already seen on the same walk makes the
classic (V4) and stream-based (V5) loads return failure deterministically
(the walk refuses to revisit an offset), a two-offset cycle fails both
loaders, and the top-level parse then falls through to the full rebuild. -/
theorem prevChainCycleDetection :
    (∀ (file : List (Int × V4Section)) (t : CrossRefTable) (off : Int) (seen xl sl : List Int),
       0 < off → off ∈ seen → walkV4 file t off seen xl sl = (false, t, xl, sl)) ∧
    (∀ (file : List (Int × V4Section)) (file5 : List (Int × V5Stream))
       (readNumAt : Int → Option Nat) (t0 : CrossRefTable) (A B : Int)
       (secA secB : V4Section) (trA trB : TrailerDict),
       A ≠ B → 0 < A → 0 < B →
       lookupOffset file A = some secA → secA.skipOk = true → secA.trailer = some trA →
       trA.prev = B →
       lookupOffset file B = some secB → secB.trailer = some trB → trB.prev = A →
       (LoadAllCrossRefV4 file file5 readNumAt t0 A).1 = false) ∧
    (∀ (file5 : List (Int × V5Stream)) (t0 : CrossRefTable) (A : Int) (sA sB : V5Stream),
       0 < A → lookupOffset file5 A = some sA →
       sA.objNum ≠ 0 → sA.isStream = true → 0 < sA.prev → 0 ≤ sA.size →
       ¬ (GetFieldWidths sA.wArr).length < kMinFieldCount →
       (GetFieldWidths sA.wArr).sum < UINT32_MOD →
       sA.prev ≠ A → lookupOffset file5 sA.prev = some sB →
       sB.objNum ≠ 0 → sB.isStream = true → sB.prev = A → 0 ≤ sB.size →
       ¬ (GetFieldWidths sB.wArr).length < kMinFieldCount →
       (GetFieldWidths sB.wArr).sum < UINT32_MOD →
       (LoadAllCrossRefV5 file5 t0 A).1 = false) ∧
    (∀ (env : StartParseEnv) (t0 : CrossRefTable) (off : Int),
       kPDFHeaderSize ≤ off →
       (LoadAllCrossRefV4 env.fileV4 env.fileV5 env.readNumAt t0 off).1 = false →
       (LoadAllCrossRefV5 env.fileV5
         (LoadAllCrossRefV4 env.fileV4 env.fileV5 env.readNumAt t0 off).2 off).1 = false →
       startParseXRefPhase env t0 off =
         (if (RebuildCrossRef
               (LoadAllCrossRefV5 env.fileV5
                 (LoadAllCrossRefV4 env.fileV4 env.fileV5 env.readNumAt t0 off).2 off).2
               env.rebuildTokens).1 = true
          then some ((RebuildCrossRef
                 (LoadAllCrossRefV5 env.fileV5
                   (LoadAllCrossRefV4 env.fileV4 env.fileV5 env.readNumAt t0 off).2 off).2
                 env.rebuildTokens).2, true)
          else none)) := by
  refine ⟨?_, ?_, ?_, ?_⟩
  · intro file t off seen xl sl hpos hmem
    exact walkV4_seen file t off seen xl sl (by omega) hmem
  · intro file file5 readNumAt t0 A B secA secB trA trB hAB hA hB hfA hskipA htrA hprevA hfB
      htrB hprevB
    rw [loadAllCrossRefV4_shape file file5 readNumAt t0 A secA trA hfA hskipA htrA]
    have hw : walkV4 file (v4StartTable t0 trA) trA.prev [A] [A] [trA.xrefstm] =
        (false, CrossRefTable.MergeUp (trailerOnlyTable (some trB) 0) (v4StartTable t0 trA),
         trA.prev :: [A], trB.xrefstm :: [trA.xrefstm]) := by
      rw [walkV4_step file (v4StartTable t0 trA) trA.prev [A] [A] [trA.xrefstm] secB trB
        (by omega) (by simp [hprevA, Ne.symm hAB]) (by rw [hprevA]; exact hfB) htrB]
      rw [walkV4_seen _ _ _ _ _ _ (by omega) (by rw [hprevB, hprevA]; simp)]
    rw [hw]
    simp
  · intro file5 t0 A sA sB hA hfA h1A h2A hpA h4A h5A h6A hne hfB h1B h2B hprevB h4B h5B h6B
    have loadA : ∀ (t : CrossRefTable) (b : Bool), LoadCrossRefV5 file5 t A b =
        (true,
         processV5Segments sA.data (GetFieldWidths sA.wArr) (GetFieldWidths sA.wArr).sum
           (GetCrossRefV5Indices sA.indexArr sA.size.toNat) 0 (v5ApplyTrailer sA t b),
         sA.prev) := fun t b =>
      loadCrossRefV5_success file5 t A b sA hfA h1A h2A (by omega) h4A h5A h6A
    have loadB : ∀ (t : CrossRefTable), LoadCrossRefV5 file5 t sA.prev false =
        (true,
         processV5Segments sB.data (GetFieldWidths sB.wArr) (GetFieldWidths sB.wArr).sum
           (GetCrossRefV5Indices sB.indexArr sB.size.toNat) 0 (v5ApplyTrailer sB t false),
         sB.prev) := fun t =>
      loadCrossRefV5_success file5 t sA.prev false sB hfB h1B h2B (by omega) h4B h5B h6B
    rw [loadAllCrossRefV5_go file5 t0 _ A sA.prev (loadA t0 true)]
    rw [walkV5_step file5 _ sA.prev [] _ _ sB.prev (by omega) (loadB _)
      (by simp [hprevB]; exact fun h => hne h.symm)
      (by intro _; simp [hprevB]; exact fun h => hne h.symm)]
    rw [walkV5_cycle file5 _ sB.prev (sA.prev :: []) _ _ sA.prev (by omega)
      (by rw [hprevB]; exact loadA _ false) (by simp)]
  · intro env t0 off h9 h4 h5
    simp only [startParseXRefPhase, if_pos h9, h4, h5]
    simp

/-- Witness for C4: the two-offset circular `/Prev` chains between offsets
20 and 40 defeat both the classic and the stream-based loader. -/
theorem prevChainCycleDetection_witness :
    (LoadAllCrossRefV4 fileCycV4 [] (fun _ => none) {} 20).1 = false ∧
    (LoadAllCrossRefV5 fileCycV5 {} 20).1 = false :=
  ⟨prevChainCycleDetection.2.1 fileCycV4 [] (fun _ => none) {} 20 40 secCycA secCycB
      { prev := 40 } { prev := 20 } (by decide) (by decide) (by decide) (by decide)
      (by decide) (by decide) (by decide) (by decide) (by decide) (by decide),
   prevChainCycleDetection.2.2.1 fileCycV5 {} 20 streamCycA streamCycB (by decide)
      (by decide) (by decide) (by decide) (by decide) (by decide) (by decide) (by decide)
      (by decide) (by decide) (by decide) (by decide) (by decide) (by decide) (by decide)
      (by decide)⟩

/-- C5: `RebuildCrossRef` succeeds exactly when, after the full linear scan,
the resulting table has a trailer and a non-empty object map; when the
rebuild fails in the startup sequence (after both loaders failed, or
directly when the startxref offset is implausible), the whole parse is the
fatal format error. -/
theorem rebuildCrossRefSuccessCriterion :
    (∀ (t : CrossRefTable) (tokens : List RebuildToken),
       (RebuildCrossRef t tokens).1 = true ↔
         ((RebuildCrossRef t tokens).2.trailer.isSome = true ∧
          (RebuildCrossRef t tokens).2.objectsInfo ≠ [])) ∧
    (∀ (env : StartParseEnv) (t0 : CrossRefTable) (off : Int),
       kPDFHeaderSize ≤ off →
       (LoadAllCrossRefV4 env.fileV4 env.fileV5 env.readNumAt t0 off).1 = false →
       (LoadAllCrossRefV5 env.fileV5
         (LoadAllCrossRefV4 env.fileV4 env.fileV5 env.readNumAt t0 off).2 off).1 = false →
       (RebuildCrossRef
         (LoadAllCrossRefV5 env.fileV5
           (LoadAllCrossRefV4 env.fileV4 env.fileV5 env.readNumAt t0 off).2 off).2
         env.rebuildTokens).1 = false →
       startParseXRefPhase env t0 off = none) ∧
    (∀ (env : StartParseEnv) (t0 : CrossRefTable) (off : Int),
       off < kPDFHeaderSize →
       (RebuildCrossRef t0 env.rebuildTokens).1 = false →
       startParseXRefPhase env t0 off = none) := by
  refine ⟨?_, ?_, ?_⟩
  · intro t tokens
    simp only [RebuildCrossRef]
    simp [Bool.and_eq_true, List.isEmpty_iff]
  · intro env t0 off h9 h4 h5 hr
    simp only [startParseXRefPhase, if_pos h9, h4, h5, hr]
    simp
  · intro env t0 off h9 hr
    simp only [startParseXRefPhase, if_neg (by omega : ¬ off ≥ kPDFHeaderSize), hr]
    simp

/-- Witness for C5: with nothing parsable and an implausible startxref
offset, the failed rebuild is a fatal format error. -/
theorem rebuildCrossRefSuccessCriterion_witness :
    startParseXRefPhase envEmptyStart {} 0 = none :=
  rebuildCrossRefSuccessCriterion.2.2 envEmptyStart {} 0 (by decide) (by decide)

/-- C7: `VerifyCrossRefV4` re-reads the object at the first non-zero
recorded offset and is false exactly when the encoded object number there
does not equal the expected object number; in `LoadAllCrossRefV4`, a
mismatch after applying the first table section rejects the whole classic
load. -/
theorem verifyCrossRefV4SpotCheck :
    (∀ (t : CrossRefTable) (readNumAt : Int → Option Nat),
       VerifyCrossRefV4 t readNumAt = false ↔
         ∃ k info, t.objectsInfo.find? (fun p => decide ((0 : Int) < p.2.pos)) =
             some (k, info) ∧ readNumAt info.pos ≠ some k) ∧
    (∀ (file : List (Int × V4Section)) (file5 : List (Int × V5Stream))
       (readNumAt : Int → Option Nat) (t0 : CrossRefTable) (off : Int) (sec : V4Section)
       (tr : TrailerDict),
       0 < off →
       lookupOffset file off = some sec → sec.skipOk = true → sec.trailer = some tr →
       tr.prev ≤ 0 → tr.xrefstm ≤ 0 → sec.readOk = true →
       VerifyCrossRefV4 (MergeCrossRefObjectsData (v4StartTable t0 tr) sec.objects)
         readNumAt = false →
       (LoadAllCrossRefV4 file file5 readNumAt t0 off).1 = false) := by
  constructor
  · intro t readNumAt
    unfold VerifyCrossRefV4
    cases hfind : t.objectsInfo.find? (fun p => decide ((0 : Int) < p.2.pos)) with
    | none => simp
    | some p =>
      obtain ⟨k, info⟩ := p
      dsimp only
      cases hrn : readNumAt info.pos with
      | none =>
        constructor
        · intro _
          exact ⟨k, info, rfl, by simp [hrn]⟩
        · intro _
          rfl
      | some n =>
        constructor
        · intro hb
          refine ⟨k, info, rfl, ?_⟩
          rw [hrn]
          intro hcontra
          injection hcontra with hnk
          rw [hnk] at hb
          simp at hb
        · rintro ⟨k2, info2, heq, hne⟩
          injection heq with heq2
          have hk : k2 = k := (congrArg Prod.fst heq2).symm
          have hi : info2 = info := (congrArg Prod.snd heq2).symm
          subst hk
          subst hi
          rw [hrn] at hne
          simp only [ne_eq, Option.some.injEq] at hne
          simpa using hne
  · intro file file5 readNumAt t0 off sec tr hoff hfind hskip htr hprev hstm hread hver
    rw [loadAllCrossRefV4_shape file file5 readNumAt t0 off sec tr hfind hskip htr]
    rw [walkV4_zero file (v4StartTable t0 tr) tr.prev [off] [off] [tr.xrefstm] hprev]
    simp only [applyV4]
    rw [if_pos hoff]
    simp only [LoadCrossRefV4, hfind, hread]
    simp only [if_neg (by omega : ¬ 0 < tr.xrefstm)]
    simp [hver]

/-- Witness for C7: a table recording object 3 at position 50 whose re-read
yields 99 is rejected. -/
theorem verifyCrossRefV4SpotCheck_witness :
    (LoadAllCrossRefV4 fileSpotCheck [] readNumMismatch {} 20).1 = false :=
  verifyCrossRefV4SpotCheck.2 fileSpotCheck [] readNumMismatch {} 20 secSpotCheck {}
    (by decide) (by decide) (by decide) (by decide) (by decide) (by decide) (by decide)
    (by decide)

/-- C8: a cross-reference stream whose `/W` array supplies fewer than 3
widths, or whose widths sum past 32-bit range, fails that V5 table load
before any record is decoded (the table carries at most the already-applied
trailer), and the whole stream-chain load fails with it. -/
theorem loadCrossRefV5WValidation (file5 : List (Int × V5Stream)) (t : CrossRefTable)
    (pos : Int) (bMainXRef : Bool) (s : V5Stream)
    (hs : lookupOffset file5 pos = some s)
    (hW : (GetFieldWidths s.wArr).length < kMinFieldCount ∨
          UINT32_MOD ≤ (GetFieldWidths s.wArr).sum) :
    (LoadCrossRefV5 file5 t pos bMainXRef).1 = false ∧
    ((LoadCrossRefV5 file5 t pos bMainXRef).2.1 = t ∨
     (LoadCrossRefV5 file5 t pos bMainXRef).2.1 = v5ApplyTrailer s t bMainXRef) ∧
    (LoadAllCrossRefV5 file5 t pos).1 = false := by
  have key : ∀ b : Bool, (LoadCrossRefV5 file5 t pos b).1 = false ∧
      ((LoadCrossRefV5 file5 t pos b).2.1 = t ∨
       (LoadCrossRefV5 file5 t pos b).2.1 = v5ApplyTrailer s t b) := by
    intro b
    simp only [LoadCrossRefV5, hs]
    by_cases h1 : s.objNum = 0
    · rw [if_pos h1]
      exact ⟨rfl, Or.inl rfl⟩
    · rw [if_neg h1]
      by_cases h2 : s.isStream = true
      · rw [if_neg (by simp [h2])]
        by_cases h3 : s.prev < 0
        · rw [if_pos h3]
          exact ⟨rfl, Or.inl rfl⟩
        · rw [if_neg h3]
          by_cases h4 : s.size < 0
          · rw [if_pos h4]
            exact ⟨rfl, Or.inl rfl⟩
          · rw [if_neg h4]
            by_cases h5 : (GetFieldWidths s.wArr).length < kMinFieldCount
            · rw [if_pos h5]
              exact ⟨rfl, Or.inr rfl⟩
            · rcases hW with hW | hW
              · exact absurd hW h5
              · rw [if_neg h5, if_pos (by omega)]
                exact ⟨rfl, Or.inr rfl⟩
      · rw [if_pos (by simp [h2])]
        exact ⟨rfl, Or.inl rfl⟩
  refine ⟨(key bMainXRef).1, (key bMainXRef).2, ?_⟩
  have h1 := (key true).1
  rcases hld : LoadCrossRefV5 file5 t pos true with ⟨ok, t1, off1⟩
  rw [hld] at h1
  simp only at h1
  subst h1
  rw [loadAllCrossRefV5_fail file5 t t1 pos off1 hld]

/-- Witness for C8: a stream whose `/W` has two widths fails the load. -/
theorem loadCrossRefV5WValidation_witness :
    (LoadCrossRefV5 fileBadW {} 30 true).1 = false :=
  (loadCrossRefV5WValidation fileBadW {} 30 true streamBadW (by decide)
    (Or.inl (by decide))).1

end Pdfium
